import Mathlib

/-!
Shallow embedding of the session lifecycle engine of the Meditation Band
firmware (src/Meditation-Band/FIRMWARE/src/main.cpp).

Modelling conventions:
* Millisecond clocks are Nat values reduced modulo 2^32, matching the
  uint32_t arithmetic performed on the return value of millis(); u32sub is
  wrapping uint32 subtraction.
* One iteration of loop() — handleTouch() then updateLED() — is modelled as
  an atomic step at a single instant `now`; the blocking haptic and LED
  delays inside a step are represented only by the emitted events, which
  matches the specification's treatment of effectors as atomic synchronous
  side effects.
* LED colour/brightness rendering is a cosmetic output sink and is elided;
  the SETTLING timing logic of updateLED (the function-static settlingStart
  variable and the 30 s expiry) is kept exactly, as a Device field.
* JSON parsing is performed by the external ArduinoJson collaborator: a
  boundary payload is embedded as `Parsed α`, distinguishing a parse
  failure (err: DeserializationError was returned), a document that parses
  but is not an array (notArray: the JsonArray cast yields a null array
  that iterates zero times and has size 0), and a real array of elements.
* generateUUID() draws from the hardware random source; the uuid string it
  would return is passed to each operation as an explicit argument.
* Characteristic writes are recorded as events: statusSet for setValue on
  the Status characteristic, statusNotify for the notify() that follows
  when deviceConnected holds, hapticPulses n for pulseMotor(n).
* saveToFlash() writes to the external persistence adapter and does not
  change core state; it is elided from the state transformers.
-/

namespace MedBand

/-- The uint32 modulus 2^32. -/
def U32 : Nat := 4294967296

/-- Wrapping uint32 subtraction a - b, as the firmware computes it on
millisecond timestamps. -/
def u32sub (a b : Nat) : Nat := (a % U32 + (U32 - b % U32)) % U32

/-- SQUEEZE_HOLD_MS: how long a squeeze must be held. -/
def SQUEEZE_HOLD_MS : Nat := 200

/-- COMPLETION_GLOW_MS: how long the LED glows after completion. -/
def COMPLETION_GLOW_MS : Nat := 30000

/-- MAX_PENDING_SESSIONS: capacity bound of the session log. -/
def MAX_PENDING_SESSIONS : Nat := 50

/-- The firmware state machine enum (enum class State). -/
inductive State where
  | IDLE
  | PENDING
  | ACTIVE
  | SETTLING
deriving DecidableEq

/-- struct Session: one stored session record. -/
structure Session where
  uuid : String
  startTime : Nat
  endTime : Nat
  durationSeconds : Nat
  synced : Bool
deriving DecidableEq

/-- struct Plan: the current day's optional goal. durationMinutes is a
uint16_t field, date a uint32_t field. -/
structure Plan where
  date : Nat
  durationMinutes : Nat
  enforceGoal : Bool
  active : Bool
deriving DecidableEq

/-- The firmware's global mutable state relevant to the session lifecycle
engine, gathered into one record. The fixed 50-slot array plus
pendingSessionCount is modelled as the list of its first
pendingSessionCount entries. settlingStart models the function-static
variable of updateLED (initially 0). -/
structure Device where
  currentState : State
  sessionStartTime : Nat
  sessionDuration : Nat
  totalSeconds : Nat
  goalDuration : Nat
  goalReached : Bool
  lastSqueezeState : Bool
  squeezeStartTime : Nat
  pendingSessions : List Session
  todaysPlan : Plan
  settlingStart : Nat
  deviceConnected : Bool
deriving DecidableEq

/-- Observable side effects of a step. -/
inductive Event where
  | hapticPulses (n : Nat)
  | statusSet (s : State)
  | statusNotify (s : State)
deriving DecidableEq

/-- Boot-time values of the firmware globals. -/
def initDevice : Device :=
  { currentState := State.IDLE
    sessionStartTime := 0
    sessionDuration := 0
    totalSeconds := 0
    goalDuration := 0
    goalReached := false
    lastSqueezeState := false
    squeezeStartTime := 0
    pendingSessions := []
    todaysPlan := { date := 0, durationMinutes := 0, enforceGoal := false, active := false }
    settlingStart := 0
    deviceConnected := false }

/-- Result of handing a payload to deserializeJson and casting the document
to JsonArray, the two steps both storePlans and markSessionsSynced begin
with. -/
inductive Parsed (α : Type) where
  | err : Parsed α
  | notArray : Parsed α
  | arr : List α → Parsed α

/-- One element of an uploaded plans array: each field may be absent, in
which case the `|` default applies. -/
structure PlanMsg where
  date : Option Nat
  duration : Option Nat
  enforceGoal : Option Bool

/-- setValue on the Status characteristic followed by notify() when a
client is connected. -/
def notifyStatus (st : State) (d : Device) : List Event :=
  Event.statusSet st :: (if d.deviceConnected then [Event.statusNotify st] else [])

/-- addPendingSession: at capacity, shift the array down dropping index 0
and set the count to MAX-1, then write the new record at the tail and
increment the count. Persists afterward. -/
def addPendingSession (uuid : String) (start stop duration : Nat) (d : Device) : Device :=
  let sessions :=
    if MAX_PENDING_SESSIONS ≤ d.pendingSessions.length then
      (d.pendingSessions.drop 1).take (MAX_PENDING_SESSIONS - 1)
    else d.pendingSessions
  { d with pendingSessions :=
      sessions ++ [{ uuid := uuid, startTime := start, endTime := stop,
                     durationSeconds := duration, synced := false }] }

/-- startSession: enter ACTIVE, snapshot the start instant, reset the
duration and goalReached, and snapshot the goal duration from todaysPlan;
pulse once and push a status update. -/
def startSession (now : Nat) (d : Device) : Device × List Event :=
  let goal :=
    if d.todaysPlan.active ∧ 0 < d.todaysPlan.durationMinutes then
      d.todaysPlan.durationMinutes * 60 * 1000
    else 0
  let d2 := { d with currentState := State.ACTIVE, sessionStartTime := now,
                     sessionDuration := 0, goalReached := false, goalDuration := goal }
  (d2, Event.hapticPulses 1 :: notifyStatus State.ACTIVE d2)

/-- endSession: compute the elapsed duration, record a session (epoch-second
approximations) and bump the total when at least 10 s elapsed, pulse three
times, enter SETTLING and push a status update. -/
def endSession (uuid : String) (now : Nat) (d : Device) : Device × List Event :=
  let dur := u32sub now d.sessionStartTime
  let d2 := { d with sessionDuration := dur }
  let d3 :=
    if 10000 ≤ dur then
      let sec := dur / 1000
      let d4 := addPendingSession uuid (d2.sessionStartTime / 1000) (now / 1000) sec d2
      { d4 with totalSeconds := (d4.totalSeconds + sec) % U32 }
    else d2
  let d5 := { d3 with currentState := State.SETTLING }
  (d5, Event.hapticPulses 3 :: notifyStatus State.SETTLING d5)

/-- completeWithGoal: set goalReached, pulse three times, and when the
current plan's enforceGoal flag is set, auto-end the session exactly as a
manual stop would. -/
def completeWithGoal (uuid : String) (now : Nat) (d : Device) : Device × List Event :=
  let d2 := { d with goalReached := true }
  if d2.todaysPlan.enforceGoal then
    let p := endSession uuid now d2
    (p.1, Event.hapticPulses 3 :: p.2)
  else
    (d2, [Event.hapticPulses 3])

/-- The state-machine dispatch inside handleTouch once a valid squeeze
gesture is detected (the switch on currentState). The SETTLING arm returns
to IDLE with no status write. -/
def dispatchSqueeze (uuid : String) (now : Nat) (d : Device) : Device × List Event :=
  match d.currentState with
  | State.IDLE => startSession now d
  | State.ACTIVE => endSession uuid now d
  | State.SETTLING => ({ d with currentState := State.IDLE }, [])
  | State.PENDING => (d, [])

/-- handleTouch: AND the two raw inputs; latch squeezeStartTime on the
rising edge; while held with the previous sample also squeezing, dispatch
once the uint32 hold duration reaches SQUEEZE_HOLD_MS, then set
squeezeStartTime to now + 1000 (the intended 1 s re-trigger guard); always
record the sample in lastSqueezeState. -/
def handleTouch (leftPressed rightPressed : Bool) (uuid : String) (now : Nat)
    (d : Device) : Device × List Event :=
  let squeezing := leftPressed && rightPressed
  let d1 :=
    if squeezing && !d.lastSqueezeState then { d with squeezeStartTime := now % U32 } else d
  let p :=
    if squeezing && d.lastSqueezeState then
      let holdDuration := u32sub now d1.squeezeStartTime
      if SQUEEZE_HOLD_MS ≤ holdDuration then
        let q := dispatchSqueeze uuid now d1
        ({ q.1 with squeezeStartTime := (now + 1000) % U32 }, q.2)
      else (d1, [])
    else (d1, [])
  ({ p.1 with lastSqueezeState := squeezing }, p.2)

/-- updateLED, rendering elided: in ACTIVE, fire completeWithGoal the first
time the elapsed uint32 time reaches the goal; in SETTLING, latch the
static settlingStart when it is 0, and once COMPLETION_GLOW_MS has elapsed
since that latch, return to IDLE, clear the latch and push a status
update. -/
def updateLED (uuid : String) (now : Nat) (d : Device) : Device × List Event :=
  match d.currentState with
  | State.IDLE => (d, [])
  | State.PENDING => (d, [])
  | State.ACTIVE =>
      if 0 < d.goalDuration ∧ d.goalReached = false then
        if d.goalDuration ≤ u32sub now d.sessionStartTime then
          completeWithGoal uuid now d
        else (d, [])
      else (d, [])
  | State.SETTLING =>
      let start := if d.settlingStart = 0 then now % U32 else d.settlingStart
      let d1 := { d with settlingStart := start }
      if u32sub now start < COMPLETION_GLOW_MS then
        (d1, [])
      else
        let d2 := { d1 with currentState := State.IDLE, settlingStart := 0 }
        (d2, notifyStatus State.IDLE d2)

/-- One loop() iteration at instant now: handleTouch then updateLED (the
BLE refresh reads state only). -/
structure Tick where
  left : Bool
  right : Bool
  now : Nat
  uuid : String

/-- Run one tick, collecting events. -/
def step (t : Tick) (d : Device) : Device × List Event :=
  let p := handleTouch t.left t.right t.uuid t.now d
  let q := updateLED t.uuid t.now p.1
  (q.1, p.2 ++ q.2)

/-- Run a gesture-tick script, keeping only the final state. -/
def runD (ts : List Tick) (d : Device) : Device :=
  ts.foldl (fun d t => (step t d).1) d

/-- Flip a record's synced flag on. -/
def syncSession (s : Session) : Session := { s with synced := true }

/-- The inner loop of markSessionsSynced for one acknowledged uuid: mark the
first stored record with that uuid (the break after the first strcmp
match). -/
def markOne (u : String) : List Session → List Session
  | [] => []
  | s :: rest => if s.uuid = u then syncSession s :: rest else s :: markOne u rest

/-- The mark pass of markSessionsSynced over the whole acknowledged array. -/
def markAll (uuids : List String) (l : List Session) : List Session :=
  uuids.foldl (fun acc u => markOne u acc) l

/-- The compaction pass of markSessionsSynced: keep the unsynced records in
order. -/
def compact (l : List Session) : List Session := l.filter (fun s => !s.synced)

/-- markSessionsSynced: on a parse error return before touching state; a
parsed non-array casts to a null JsonArray whose iteration is empty, so
only the compaction pass runs; on an array, mark each acknowledged uuid
then compact. Persists afterward. -/
def markSessionsSynced (payload : Parsed String) (d : Device) : Device :=
  match payload with
  | Parsed.err => d
  | Parsed.notArray => { d with pendingSessions := compact d.pendingSessions }
  | Parsed.arr uuids =>
      { d with pendingSessions := compact (markAll uuids d.pendingSessions) }

/-- storePlans: on a parse error return before touching state; a parsed
non-array casts to a null JsonArray of size 0, which takes the same branch
as an empty array and deactivates the plan; otherwise the first element
(with `|` defaults for absent fields) wholesale replaces todaysPlan with
active set. Field widths: durationMinutes is uint16_t, date uint32_t. -/
def storePlans (payload : Parsed PlanMsg) (d : Device) : Device :=
  match payload with
  | Parsed.err => d
  | Parsed.notArray =>
      { d with todaysPlan := { d.todaysPlan with active := false } }
  | Parsed.arr [] =>
      { d with todaysPlan := { d.todaysPlan with active := false } }
  | Parsed.arr (p :: _) =>
      { d with todaysPlan :=
          { date := p.date.getD 0 % U32
            durationMinutes := p.duration.getD 0 % 65536
            enforceGoal := p.enforceGoal.getD false
            active := true } }

/-- loadFromFlash, pending-session part: the persisted count is a signed
int; session bytes are read only when it lies in (0, MAX]; otherwise the
count is reset to 0. The blob argument is the record array that getBytes
would read. -/
def loadPending (storedCnt : Int) (blob : List Session) : List Session :=
  if 0 < storedCnt ∧ storedCnt ≤ (MAX_PENDING_SESSIONS : Int) then
    blob.take storedCnt.toNat
  else []

/-- Whether loadFromFlash performs the getBytes read of session records. -/
def loadReadsBytes (storedCnt : Int) : Bool :=
  decide (0 < storedCnt ∧ storedCnt ≤ (MAX_PENDING_SESSIONS : Int))

/-- The array index at which addPendingSession writes the new record, as a
function of the incoming pendingSessionCount. -/
def insertIndex (count : Nat) : Nat :=
  if MAX_PENDING_SESSIONS ≤ count then MAX_PENDING_SESSIONS - 1 else count

/-- The arguments of one addPendingSession call. -/
structure SRec where
  uuid : String
  startT : Nat
  endT : Nat
  dur : Nat

/-- The record that addPendingSession stores for the given arguments. -/
def mkSession (r : SRec) : Session :=
  { uuid := r.uuid, startTime := r.startT, endTime := r.endT,
    durationSeconds := r.dur, synced := false }

/-- Perform a sequence of addPendingSession calls. -/
def appendAll (rs : List SRec) (d : Device) : Device :=
  rs.foldl (fun d r => addPendingSession r.uuid r.startT r.endT r.dur d) d

/-- The last n elements of a list (all of it when it is shorter). -/
def lastN {α : Type} (n : Nat) (l : List α) : List α := l.drop (l.length - n)

/-- Marking a record as matched during the acknowledgment pass, as a map
over one record. -/
def markIf (u : String) (s : Session) : Session :=
  if s.uuid = u then syncSession s else s

/-- Marking a record whose uuid lies in the acknowledged set. -/
def syncIf (S : List String) (s : Session) : Session :=
  if s.uuid ∈ S then syncSession s else s

/- Concrete scenario data used by the claim theorems and witnesses. -/

/-- Both touch inputs held, sampled every 10 ms starting at t = 0. -/
def heldTicks (n : Nat) : List Tick :=
  (List.range n).map (fun i => { left := true, right := true, now := 10 * i, uuid := "" })

/-- A short squeeze: rising edge at t, confirmed at t + 200. -/
def press3 (t : Nat) (u : String) : List Tick :=
  [ { left := true, right := true, now := t, uuid := u },
    { left := true, right := true, now := t + 100, uuid := u },
    { left := true, right := true, now := t + 200, uuid := u } ]

/-- Both inputs released at t. -/
def rel (t : Nat) : Tick := { left := false, right := false, now := t, uuid := "" }

/-- Gesture script for the settling-timer scenario: start (confirm t=200),
stop (t=500, enters SETTLING, latches settlingStart=500), squeeze-ack back
to IDLE (t=800, settlingStart left stale), start again (t=1100), then hold
again so the stop confirms at t=30800. -/
def c6pre : List Tick :=
  press3 0 "a" ++ [rel 210] ++ press3 300 "b" ++ [rel 510] ++
  press3 600 "c" ++ [rel 810] ++ press3 900 "d" ++ [rel 1110] ++
  [ { left := true, right := true, now := 30600, uuid := "e" },
    { left := true, right := true, now := 30700, uuid := "e" } ]

/-- Device state just before the second stop of the settling scenario. -/
def c6dPre : Device := runD c6pre initDevice

/-- An active session that started at the 1900 ms mark. -/
def dC3 : Device :=
  { initDevice with currentState := State.ACTIVE, sessionStartTime := 1900 }

/-- A connected device with an active non-enforced 1-minute plan. -/
def d0c4 : Device :=
  { initDevice with
      todaysPlan := { date := 0, durationMinutes := 1, enforceGoal := false, active := true }
      deviceConnected := true }

/-- d0c4 after a session start at t = 0. -/
def dS4 : Device := (startSession 0 d0c4).1

/-- A connected device with an active enforced 1-minute plan. -/
def d0c4e : Device :=
  { initDevice with
      todaysPlan := { date := 0, durationMinutes := 1, enforceGoal := true, active := true }
      deviceConnected := true }

/-- A device holding the non-enforced 1-minute plan P1. -/
def d0c5 : Device :=
  { initDevice with
      todaysPlan := { date := 0, durationMinutes := 1, enforceGoal := false, active := true } }

/-- d0c5 after a session start at t = 0 under P1. -/
def d1c5 : Device := (startSession 0 d0c5).1

/-- The plan upload P2: same 1-minute duration, but enforceGoal set. -/
def p2c5 : PlanMsg := { date := some 0, duration := some 1, enforceGoal := some true }

/-- d1c5 after P2 is uploaded mid-session. -/
def d2c5 : Device := storePlans (Parsed.arr [p2c5]) d1c5

/-- A connected device in SETTLING with a squeeze already held long enough
to confirm on the next sample. -/
def d7 : Device :=
  { initDevice with
      currentState := State.SETTLING
      lastSqueezeState := true
      squeezeStartTime := 0
      deviceConnected := true
      settlingStart := 100 }

/-- A device holding an active plan, exposed to a non-array Plans write. -/
def d8 : Device :=
  { initDevice with
      todaysPlan := { date := 7, durationMinutes := 20, enforceGoal := true, active := true } }

/-- A session log holding two unsynced records that share the uuid "a". -/
def d9 : Device :=
  { initDevice with
      pendingSessions :=
        [ { uuid := "a", startTime := 1, endTime := 2, durationSeconds := 1, synced := false },
          { uuid := "a", startTime := 3, endTime := 4, durationSeconds := 1, synced := false } ] }

/-- 51 distinct records to append for the capacity witness. -/
def c2recs : List SRec :=
  (List.range 51).map (fun i => { uuid := toString i, startT := i, endT := i + 1, dur := 1 })

/-- A full log of 50 records. -/
def c2dev : Device :=
  { initDevice with
      pendingSessions :=
        (List.range 50).map (fun i =>
          mkSession { uuid := toString (100 + i), startT := i, endT := i, dur := 0 }) }

/-- One more record to push into the full log. -/
def c2extra : SRec := { uuid := "x", startT := 7, endT := 9, dur := 2 }

/-- A small log with distinct uuids for the acknowledgment witness. -/
def d9w : Device :=
  { initDevice with
      pendingSessions :=
        [ { uuid := "a", startTime := 1, endTime := 2, durationSeconds := 1, synced := false },
          { uuid := "b", startTime := 3, endTime := 4, durationSeconds := 1, synced := false },
          { uuid := "c", startTime := 5, endTime := 6, durationSeconds := 1, synced := false } ] }

/- Helper lemmas. -/

theorem u32sub_of_le {a b : Nat} (hba : b ≤ a) (ha : a < U32) : u32sub a b = a - b := by
  unfold u32sub U32 at *
  omega

theorem length_lastN {α : Type} (n : Nat) (l : List α) :
    (lastN n l).length = min n l.length := by
  simp only [lastN, List.length_drop]
  omega

theorem lastN_of_le {α : Type} {n : Nat} {l : List α} (h : l.length ≤ n) : lastN n l = l := by
  simp [lastN, Nat.sub_eq_zero_of_le h]

theorem lastN_append_lastN {α : Type} (n : Nat) (X Y : List α) :
    lastN n (lastN n X ++ Y) = lastN n (X ++ Y) := by
  rcases Nat.le_total X.length n with h | h
  · rw [lastN_of_le h]
  · have hk : X.length - n ≤ X.length := Nat.sub_le _ _
    unfold lastN
    rw [← List.drop_append_of_le_length hk, List.drop_drop]
    congr 1
    simp only [List.length_append, List.length_drop]
    omega

theorem addPendingSession_eq (u : String) (a b c : Nat) (d : Device)
    (h : d.pendingSessions.length ≤ 50) :
    (addPendingSession u a b c d).pendingSessions =
      lastN 50 (d.pendingSessions ++
        [{ uuid := u, startTime := a, endTime := b, durationSeconds := c,
           synced := false }]) := by
  by_cases h50 : MAX_PENDING_SESSIONS ≤ d.pendingSessions.length
  · have hlen : d.pendingSessions.length = 50 := by
      unfold MAX_PENDING_SESSIONS at h50
      omega
    simp only [addPendingSession, h50, if_true]
    rw [List.take_of_length_le (by simp [hlen, MAX_PENDING_SESSIONS])]
    unfold lastN
    rw [List.drop_append_of_le_length (by simp [hlen])]
    simp [hlen]
  · simp only [addPendingSession, h50, if_false]
    rw [lastN_of_le (by unfold MAX_PENDING_SESSIONS at h50; simp; omega)]

theorem appendAll_eq (rs : List SRec) :
    ∀ d : Device, d.pendingSessions.length ≤ 50 →
      (appendAll rs d).pendingSessions =
        lastN 50 (d.pendingSessions ++ rs.map mkSession) := by
  induction rs with
  | nil =>
      intro d h
      simp [appendAll, lastN_of_le h]
  | cons r rs ih =>
      intro d h
      have hstep := addPendingSession_eq r.uuid r.startT r.endT r.dur d h
      have hlen :
          (addPendingSession r.uuid r.startT r.endT r.dur d).pendingSessions.length ≤ 50 := by
        rw [hstep, length_lastN]
        omega
      have hfold :
          appendAll (r :: rs) d =
            appendAll rs (addPendingSession r.uuid r.startT r.endT r.dur d) := rfl
      rw [hfold, ih _ hlen, hstep]
      rw [show ({ uuid := r.uuid, startTime := r.startT, endTime := r.endT,
                  durationSeconds := r.dur, synced := false } : Session) = mkSession r from rfl]
      rw [lastN_append_lastN]
      simp [List.append_assoc]

theorem markOne_length (u : String) (l : List Session) :
    (markOne u l).length = l.length := by
  induction l with
  | nil => rfl
  | cons s rest ih =>
      by_cases h : s.uuid = u <;> simp [markOne, h, ih]

theorem markAll_length (S : List String) :
    ∀ l : List Session, (markAll S l).length = l.length := by
  induction S with
  | nil => intro l; rfl
  | cons u S ih =>
      intro l
      have : markAll (u :: S) l = markAll S (markOne u l) := rfl
      rw [this, ih, markOne_length]

theorem compact_length_le (l : List Session) : (compact l).length ≤ l.length :=
  List.length_filter_le _ l

theorem markOne_id {u : String} {l : List Session} (h : ∀ s ∈ l, s.uuid ≠ u) :
    markOne u l = l := by
  induction l with
  | nil => rfl
  | cons s rest ih =>
      have hs : s.uuid ≠ u := h s (List.mem_cons_self s rest)
      simp [markOne, hs, ih (fun t ht => h t (List.mem_cons_of_mem s ht))]

theorem uuid_markIf (u : String) (s : Session) : (markIf u s).uuid = s.uuid := by
  by_cases h : s.uuid = u <;> simp [markIf, syncSession, h]

theorem map_markIf_id {u : String} {l : List Session} (h : ∀ s ∈ l, s.uuid ≠ u) :
    l.map (markIf u) = l := by
  induction l with
  | nil => rfl
  | cons s rest ih =>
      have hs : s.uuid ≠ u := h s (List.mem_cons_self s rest)
      simp [markIf, hs, ih (fun t ht => h t (List.mem_cons_of_mem s ht))]

theorem markOne_eq_map {u : String} {l : List Session}
    (h : (l.map Session.uuid).Nodup) : markOne u l = l.map (markIf u) := by
  induction l with
  | nil => rfl
  | cons s rest ih =>
      rw [List.map_cons, List.nodup_cons] at h
      by_cases hs : s.uuid = u
      · have hrest : ∀ t ∈ rest, t.uuid ≠ u := by
          intro t ht heq
          exact h.1 (by rw [hs, ← heq]; exact List.mem_map_of_mem Session.uuid ht)
        simp [markOne, markIf, hs, map_markIf_id hrest]
      · simp [markOne, markIf, hs, ih h.2]

theorem map_uuid_markIf (u : String) (l : List Session) :
    (l.map (markIf u)).map Session.uuid = l.map Session.uuid := by
  rw [List.map_map]
  exact List.map_congr_left (fun s _ => uuid_markIf u s)

theorem syncIf_markIf (u : String) (S : List String) (s : Session) :
    syncIf S (markIf u s) = syncIf (u :: S) s := by
  by_cases h1 : s.uuid = u
  · by_cases h2 : s.uuid ∈ S <;>
      simp [syncIf, markIf, syncSession, h1, h2, List.mem_cons]
  · by_cases h2 : s.uuid ∈ S <;>
      simp [syncIf, markIf, syncSession, h1, h2, List.mem_cons]

theorem markAll_eq_map (S : List String) :
    ∀ l : List Session, (l.map Session.uuid).Nodup →
      markAll S l = l.map (syncIf S) := by
  induction S with
  | nil =>
      intro l _
      have h0 : ∀ s ∈ l, syncIf [] s = id s := by
        intro s _
        simp [syncIf, id]
      rw [List.map_congr_left h0, List.map_id]
      rfl
  | cons u S ih =>
      intro l h
      have h1 : markAll (u :: S) l = markAll S (markOne u l) := rfl
      rw [h1, markOne_eq_map h, ih _ (by rw [map_uuid_markIf]; exact h), List.map_map]
      exact List.map_congr_left (fun s _ => syncIf_markIf u S s)

theorem compact_map_syncIf (S : List String) (l : List Session) :
    compact (l.map (syncIf S)) =
      l.filter (fun s => !s.synced && !(decide (s.uuid ∈ S))) := by
  induction l with
  | nil => rfl
  | cons s rest ih =>
      by_cases h1 : s.uuid ∈ S
      · simp [compact, syncIf, syncSession, h1, List.filter] at ih ⊢
        exact ih
      · by_cases h2 : s.synced <;>
          simp [compact, syncIf, syncSession, h1, h2, List.filter] at ih ⊢ <;>
          exact ih

theorem markAll_of_disjoint (S : List String) :
    ∀ l : List Session, (∀ s ∈ l, s.uuid ∉ S) → markAll S l = l := by
  induction S with
  | nil => intro l _; rfl
  | cons u S ih =>
      intro l h
      have h1 : markAll (u :: S) l = markAll S (markOne u l) := rfl
      have h2 : markOne u l = l :=
        markOne_id (fun s hs heq => h s hs (by rw [heq]; exact List.mem_cons_self u S))
      rw [h1, h2]
      exact ih l (fun s hs hmem => h s hs (List.mem_cons_of_mem u hmem))

theorem compact_of_unsynced {l : List Session} (h : ∀ s ∈ l, s.synced = false) :
    compact l = l := by
  unfold compact
  rw [List.filter_eq_self]
  intro s hs
  simp [h s hs]

/- Claim theorems. -/

/-- Claim C1: the claim states that a confirmed-squeeze action fires at
most once per continuous AND-hold, never sooner than 200 ms after the
rising edge, and that the 1000 ms refractory deadline set after a
confirmation suppresses any further confirmation for the remainder of the
hold. Evaluating handleTouch on a continuous hold sampled every 10 ms
shows the code violating the suppression: no dispatch up to t = 190, the
first confirmation at t = 200 (Idle to Active), and a second confirmed
dispatch (Active to Settling) already at t = 210, because squeezeStartTime
is set to now + 1000 and the uint32 holdDuration = now - squeezeStartTime
underflows to about 2^32 >= 200 on the very next tick. -/
theorem claim1_refractory_eval :
    (runD (heldTicks 20) initDevice).currentState = State.IDLE
    ∧ (runD (heldTicks 21) initDevice).currentState = State.ACTIVE
    ∧ (runD (heldTicks 22) initDevice).currentState = State.SETTLING := by
  decide

/-- Claim C6: the claim states that with no squeeze, Settling returns to
Idle exactly when 30 s have elapsed since entering Settling, including for
episodes that follow an earlier episode exited early by a squeeze
acknowledgment. Evaluating the code on such a script refutes it: the
first Settling episode latches the static settlingStart at t = 500 and is
exited early by the squeeze acknowledgment at t = 800, which does not
clear the latch; when a later session's stop enters Settling at t = 30800,
updateLED compares against the stale latch (elapsed 30300 >= 30000) and
returns to Idle within the same tick instead of 30 s later. -/
theorem claim6_settling_eval :
    c6dPre.currentState = State.ACTIVE
    ∧ c6dPre.settlingStart = 500
    ∧ (handleTouch true true "e" 30800 c6dPre).1.currentState = State.SETTLING
    ∧ (step { left := true, right := true, now := 30800, uuid := "e" } c6dPre).1.currentState
        = State.IDLE := by
  decide

/-- Claim C3 counterexample: a session running from the 1900 ms mark to the
12000 ms mark is recorded with startTime 1, endTime 12 and
durationSeconds 10, and 10 is not 12 - 1: the stored durationSeconds does
not equal stored endTime minus stored startTime. -/
theorem claim3_cx :
    (endSession "u" 12000 dC3).1.pendingSessions.head? = some
      { uuid := "u", startTime := 1, endTime := 12, durationSeconds := 10, synced := false }
    ∧ ¬ (10 : Nat) = 12 - 1 := by
  decide

/-- Claim C4 counterexample: on a connected device with an active
non-enforced 1-minute plan, the tick that reaches the goal emits only the
three haptic pulses — no status set and no notification of any kind — so
the claimed goal-reached notification is never sent. -/
theorem claim4_cx :
    dS4.deviceConnected = true
    ∧ dS4.todaysPlan.enforceGoal = false
    ∧ (updateLED "u" 60000 dS4).1.currentState = State.ACTIVE
    ∧ (updateLED "u" 60000 dS4).1.goalReached = true
    ∧ (updateLED "u" 60000 dS4).2 = [Event.hapticPulses 3] := by
  decide

/-- Claim C5 counterexample: a session started under P1 (1 minute, not
enforced) stays Active when the goal is reached, but after a mid-session
upload of P2 (1 minute, enforced) the same goal tick auto-ends the session
into Settling: the goal behaviour is not determined by P1 alone. -/
theorem claim5_cx :
    d1c5.todaysPlan.enforceGoal = false
    ∧ (updateLED "u" 60000 d1c5).1.currentState = State.ACTIVE
    ∧ (updateLED "u" 60000 d2c5).1.currentState = State.SETTLING := by
  decide

/-- Claim C7 counterexample: a confirmed squeeze during Settling on a
connected device changes the phase to Idle but emits no event at all — the
Status channel is neither updated nor notified on this transition. -/
theorem claim7_cx :
    d7.deviceConnected = true
    ∧ (handleTouch true true "u" 200 d7).1.currentState = State.IDLE
    ∧ (handleTouch true true "u" 200 d7).2 = [] := by
  decide

/-- Claim C8 counterexample: a Plans payload that parses but is not a JSON
array is not ignored: it deactivates the currently active plan, changing
core state. -/
theorem claim8_cx :
    d8.todaysPlan.active = true
    ∧ (storePlans Parsed.notArray d8).todaysPlan.active = false
    ∧ storePlans Parsed.notArray d8 ≠ d8 := by
  decide

/-- Claim C9 counterexample: on a log holding two records that share the
uuid a, acknowledging that uuid once leaves one record, while acknowledging
it twice in succession leaves none — acknowledgment is not idempotent on
every log state. -/
theorem claim9_cx :
    (markSessionsSynced (Parsed.arr ["a"]) d9).pendingSessions.length = 1
    ∧ (markSessionsSynced (Parsed.arr ["a"])
        (markSessionsSynced (Parsed.arr ["a"]) d9)).pendingSessions.length = 0
    ∧ markSessionsSynced (Parsed.arr ["a"]) (markSessionsSynced (Parsed.arr ["a"]) d9)
        ≠ markSessionsSynced (Parsed.arr ["a"]) d9 := by
  decide

/-- Claim C2: the session log never holds more than 50 records: appending
at least 50 records (so 50 + k for every k >= 1) into the empty boot log
leaves exactly 50 stored records, namely the most recent 50 insertions in
insertion order, and each append to a log at capacity drops the single
oldest record at index 0 before inserting the new record at the tail. -/
theorem claim2_capacity (rs : List SRec) (h : 50 ≤ rs.length)
    (r : SRec) (d : Device) (hd : d.pendingSessions.length = 50) :
    ((appendAll rs initDevice).pendingSessions =
        (rs.map mkSession).drop (rs.length - 50)
      ∧ (appendAll rs initDevice).pendingSessions.length = 50)
    ∧ (addPendingSession r.uuid r.startT r.endT r.dur d).pendingSessions =
        d.pendingSessions.tail ++ [mkSession r] := by
  have h0 : initDevice.pendingSessions.length ≤ 50 := by simp [initDevice]
  have hmain := appendAll_eq rs initDevice h0
  refine ⟨⟨?_, ?_⟩, ?_⟩
  · rw [hmain]
    simp [initDevice, lastN]
  · rw [hmain, length_lastN]
    simp only [initDevice, List.nil_append, List.length_map]
    omega
  · rw [addPendingSession_eq r.uuid r.startT r.endT r.dur d (le_of_eq hd)]
    unfold lastN
    rw [List.drop_append_of_le_length (by simp [hd])]
    simp [hd, mkSession, List.drop_one]

/-- Claim C2 witness: 51 appends into the empty log, and one append into a
full log of 50 records. -/
theorem claim2_capacity_w :
    (50 ≤ c2recs.length ∧ c2dev.pendingSessions.length = 50)
    ∧ (((appendAll c2recs initDevice).pendingSessions =
          (c2recs.map mkSession).drop (c2recs.length - 50)
        ∧ (appendAll c2recs initDevice).pendingSessions.length = 50)
      ∧ (addPendingSession c2extra.uuid c2extra.startT c2extra.endT c2extra.dur
            c2dev).pendingSessions =
          c2dev.pendingSessions.tail ++ [mkSession c2extra]) :=
  ⟨⟨by decide, by decide⟩, claim2_capacity c2recs (by decide) c2extra c2dev (by decide)⟩

/-- Claim C10: after the boot-time load the pending count lies in [0, 50]
(a persisted count that is negative or above 50 is reset to 0 and no
session bytes are read), and the count bound is preserved by the log
mutators: an append into a log within bounds stays within bounds and
writes at an index below 50, and acknowledgment never grows the log. -/
theorem claim10_bounds (cnt : Int) (blob : List Session) (r : SRec) (d e : Device)
    (hd : d.pendingSessions.length ≤ 50) (he : e.pendingSessions.length ≤ 50)
    (p : Parsed String) :
    (loadPending cnt blob).length ≤ 50
    ∧ ((cnt < 0 ∨ 50 < cnt) → loadPending cnt blob = [] ∧ loadReadsBytes cnt = false)
    ∧ (addPendingSession r.uuid r.startT r.endT r.dur d).pendingSessions.length ≤ 50
    ∧ insertIndex d.pendingSessions.length < 50
    ∧ (markSessionsSynced p e).pendingSessions.length ≤ 50 := by
  refine ⟨?_, ?_, ?_, ?_, ?_⟩
  · unfold loadPending MAX_PENDING_SESSIONS
    split
    · rename_i hc
      have h1 : cnt.toNat ≤ 50 := by omega
      have h2 := List.length_take_le cnt.toNat blob
      omega
    · simp
  · intro hc
    unfold loadPending loadReadsBytes MAX_PENDING_SESSIONS
    refine ⟨?_, ?_⟩
    · rw [if_neg (by omega)]
    · simp only [decide_eq_false_iff_not]
      omega
  · rw [addPendingSession_eq r.uuid r.startT r.endT r.dur d hd, length_lastN]
    omega
  · unfold insertIndex MAX_PENDING_SESSIONS
    split <;> omega
  · cases p with
    | err => exact he
    | notArray =>
        calc (compact e.pendingSessions).length
            ≤ e.pendingSessions.length := compact_length_le _
          _ ≤ 50 := he
    | arr uuids =>
        calc (compact (markAll uuids e.pendingSessions)).length
            ≤ (markAll uuids e.pendingSessions).length := compact_length_le _
          _ = e.pendingSessions.length := markAll_length uuids _
          _ ≤ 50 := he

/-- Claim C10 witness: an out-of-range persisted count of 60 resets to an
empty log with no byte read, and the mutator bounds at concrete states. -/
theorem claim10_bounds_w :
    (initDevice.pendingSessions.length ≤ 50 ∧ d9w.pendingSessions.length ≤ 50)
    ∧ ((loadPending 60 []).length ≤ 50
      ∧ ((60 : Int) < 0 ∨ 50 < (60 : Int) → loadPending 60 [] = [] ∧ loadReadsBytes 60 = false)
      ∧ (addPendingSession c2extra.uuid c2extra.startT c2extra.endT c2extra.dur
            initDevice).pendingSessions.length ≤ 50
      ∧ insertIndex initDevice.pendingSessions.length < 50
      ∧ (markSessionsSynced (Parsed.arr ["a"]) d9w).pendingSessions.length ≤ 50) :=
  ⟨⟨by decide, by decide⟩,
    claim10_bounds 60 [] c2extra initDevice d9w (by decide) (by decide) (Parsed.arr ["a"])⟩

/-- Claim C3 (amended): a recorded session stores startTime and endTime as
the floored epoch seconds of the millisecond instants and stores
durationSeconds as the floored seconds of their millisecond difference;
this lies within 1 of stored endTime minus stored startTime (equal exactly
when the end's sub-second remainder is at least the start's), rather than
always equalling it. -/
theorem claim3_amended (u : String) (eMs : Nat) (d : Device)
    (h1 : d.sessionStartTime ≤ eMs) (h2 : eMs < U32)
    (h3 : 10000 ≤ eMs - d.sessionStartTime) (h4 : d.pendingSessions.length < 50) :
    (endSession u eMs d).1.pendingSessions =
      d.pendingSessions ++
        [{ uuid := u, startTime := d.sessionStartTime / 1000, endTime := eMs / 1000,
           durationSeconds := (eMs - d.sessionStartTime) / 1000, synced := false }]
    ∧ (eMs / 1000 - d.sessionStartTime / 1000) - 1 ≤ (eMs - d.sessionStartTime) / 1000
    ∧ (eMs - d.sessionStartTime) / 1000 ≤ eMs / 1000 - d.sessionStartTime / 1000 := by
  have hsub : u32sub eMs d.sessionStartTime = eMs - d.sessionStartTime :=
    u32sub_of_le h1 h2
  refine ⟨?_, by omega, by omega⟩
  simp only [endSession, hsub, if_pos h3]
  simp [addPendingSession, MAX_PENDING_SESSIONS, Nat.not_le.mpr h4]

/-- Claim C3 witness: the session from the 1900 ms mark to the 12000 ms
mark is appended with the floored fields, and its durationSeconds of 10 is
within 1 below the stored difference of 11. -/
theorem claim3_amended_w :
    (dC3.sessionStartTime ≤ 12000 ∧ 12000 < U32
      ∧ 10000 ≤ 12000 - dC3.sessionStartTime ∧ dC3.pendingSessions.length < 50)
    ∧ ((endSession "w" 12000 dC3).1.pendingSessions =
        dC3.pendingSessions ++
          [{ uuid := "w", startTime := dC3.sessionStartTime / 1000, endTime := 12000 / 1000,
             durationSeconds := (12000 - dC3.sessionStartTime) / 1000, synced := false }]
      ∧ (12000 / 1000 - dC3.sessionStartTime / 1000) - 1 ≤ (12000 - dC3.sessionStartTime) / 1000
      ∧ (12000 - dC3.sessionStartTime) / 1000 ≤ 12000 / 1000 - dC3.sessionStartTime / 1000) :=
  ⟨⟨by decide, by decide, by decide, by decide⟩,
    claim3_amended "w" 12000 dC3 (by decide) (by decide) (by decide) (by decide)⟩

/-- Claim C8 (amended): an unparseable Plans or Ack payload is ignored and
leaves the whole device state unchanged; a payload that parses but is not
a JSON array is treated exactly like an empty array: on the Plans channel
it deactivates the current plan (leaving every other field unchanged), and
on the Ack channel it only runs the compaction pass, which is a no-op on a
log of unsynced records; no payload is partially applied. -/
theorem claim8_boundary (dA dB dC dD : Device)
    (hD : ∀ s ∈ dD.pendingSessions, s.synced = false) :
    storePlans Parsed.err dA = dA
    ∧ markSessionsSynced Parsed.err dB = dB
    ∧ storePlans Parsed.notArray dC =
        { dC with todaysPlan := { dC.todaysPlan with active := false } }
    ∧ markSessionsSynced Parsed.notArray dD = dD := by
  refine ⟨rfl, rfl, rfl, ?_⟩
  simp only [markSessionsSynced]
  rw [compact_of_unsynced hD]

/-- Claim C8 witness: the boundary behaviour at a device with an active
plan and at a log of three unsynced records. -/
theorem claim8_boundary_w :
    storePlans Parsed.err d8 = d8
    ∧ markSessionsSynced Parsed.err d8 = d8
    ∧ storePlans Parsed.notArray d8 =
        { d8 with todaysPlan := { d8.todaysPlan with active := false } }
    ∧ markSessionsSynced Parsed.notArray d9w = d9w :=
  claim8_boundary d8 d8 d8 d9w (by decide)

/-- Claim C9 (amended): for every log whose stored ids are pairwise
distinct (as the device-generated UUIDs are, barring random collisions),
acknowledging an id set twice in succession yields the same log as
acknowledging it once; and an acknowledged id matching no stored record is
silently ignored: dropping it from the acknowledgment leaves the result
unchanged. On logs with duplicated ids the first-match-only marking breaks
idempotence, so the distinctness hypothesis is necessary. -/
theorem claim9_ack (d : Device) (S : List String)
    (hnd : (d.pendingSessions.map Session.uuid).Nodup)
    (u : String) (rest : List String)
    (hu : ∀ s ∈ d.pendingSessions, s.uuid ≠ u) :
    markSessionsSynced (Parsed.arr S) (markSessionsSynced (Parsed.arr S) d) =
      markSessionsSynced (Parsed.arr S) d
    ∧ markSessionsSynced (Parsed.arr (u :: rest)) d =
      markSessionsSynced (Parsed.arr rest) d := by
  constructor
  · have hchar : compact (markAll S d.pendingSessions) =
        d.pendingSessions.filter (fun s => !s.synced && !(decide (s.uuid ∈ S))) := by
      rw [markAll_eq_map S d.pendingSessions hnd, compact_map_syncIf]
    have hRsync : ∀ s ∈ compact (markAll S d.pendingSessions), s.synced = false := by
      intro s hs
      rw [hchar] at hs
      have h' := List.of_mem_filter hs
      simp only [Bool.and_eq_true, Bool.not_eq_true'] at h'
      exact h'.1
    have hRuuid : ∀ s ∈ compact (markAll S d.pendingSessions), s.uuid ∉ S := by
      intro s hs
      rw [hchar] at hs
      have h' := List.of_mem_filter hs
      simp only [Bool.and_eq_true, Bool.not_eq_true', decide_eq_false_iff_not] at h'
      exact h'.2
    show { d with pendingSessions :=
            compact (markAll S (compact (markAll S d.pendingSessions))) } =
         { d with pendingSessions := compact (markAll S d.pendingSessions) }
    rw [markAll_of_disjoint S _ hRuuid, compact_of_unsynced hRsync]
  · have h1 : markAll (u :: rest) d.pendingSessions = markAll rest d.pendingSessions := by
      show markAll rest (markOne u d.pendingSessions) = markAll rest d.pendingSessions
      rw [markOne_id hu]
    simp only [markSessionsSynced, h1]

/-- Claim C9 witness: a log with the distinct uuids a, b, c, the
acknowledgment set containing the stored b and the unknown z, and the
unknown leading id q. -/
theorem claim9_ack_w :
    markSessionsSynced (Parsed.arr ["b", "z"])
        (markSessionsSynced (Parsed.arr ["b", "z"]) d9w) =
      markSessionsSynced (Parsed.arr ["b", "z"]) d9w
    ∧ markSessionsSynced (Parsed.arr ("q" :: ["b"])) d9w =
      markSessionsSynced (Parsed.arr ["b"]) d9w :=
  claim9_ack d9w ["b", "z"] (by decide) "q" ["b"] (by decide)

/-- Claim C4 (amended): with an active plan of durationMinutes 1, a session
reaching 60 s elapsed behaves as follows: with enforceGoal true, the tick
performs exactly the manual-stop transition (goalReached set, then the
same endSession call, with the extra goal haptic burst) ending in Settling
with a recorded session of durationSeconds 60; with enforceGoal false, the
tick sets goalReached, emits only the three haptic pulses (no
notification is sent), and leaves the phase Active. -/
theorem claim4_goal (t0 : Nat) (u : String) (d0 : Device)
    (hp1 : d0.todaysPlan.active = true) (hp2 : d0.todaysPlan.durationMinutes = 1)
    (ht : t0 + 60000 < U32) :
    (d0.todaysPlan.enforceGoal = true →
       updateLED u (t0 + 60000) (startSession t0 d0).1 =
         ((endSession u (t0 + 60000) { (startSession t0 d0).1 with goalReached := true }).1,
          Event.hapticPulses 3 ::
            (endSession u (t0 + 60000) { (startSession t0 d0).1 with goalReached := true }).2)
       ∧ (updateLED u (t0 + 60000) (startSession t0 d0).1).1.currentState = State.SETTLING
       ∧ (updateLED u (t0 + 60000) (startSession t0 d0).1).1.pendingSessions.getLast? =
           some { uuid := u, startTime := t0 / 1000, endTime := (t0 + 60000) / 1000,
                  durationSeconds := 60, synced := false })
    ∧ (d0.todaysPlan.enforceGoal = false →
       updateLED u (t0 + 60000) (startSession t0 d0).1 =
         ({ (startSession t0 d0).1 with goalReached := true }, [Event.hapticPulses 3])) := by
  have hb : (startSession t0 d0).1 =
      { d0 with currentState := State.ACTIVE, sessionStartTime := t0,
                sessionDuration := 0, goalReached := false, goalDuration := 60000 } := by
    simp [startSession, hp1, hp2]
  have hsub : u32sub (t0 + 60000) t0 = 60000 := by
    have h1 := u32sub_of_le (Nat.le_add_right t0 60000) ht
    omega
  constructor
  · intro henf
    refine ⟨?_, ?_, ?_⟩
    · rw [hb]
      simp [updateLED, completeWithGoal, hsub, henf]
    · rw [hb]
      simp [updateLED, completeWithGoal, endSession, hsub, henf]
    · rw [hb]
      simp [updateLED, completeWithGoal, endSession, addPendingSession, hsub, henf,
            List.getLast?_concat]
  · intro henf
    rw [hb]
    simp [updateLED, completeWithGoal, hsub, henf]

/-- Claim C4 witness: a connected device with an active enforced 1-minute
plan, session started at t = 0 and ticked at t = 60000. -/
theorem claim4_goal_w :
    (d0c4e.todaysPlan.enforceGoal = true →
       updateLED "g" (0 + 60000) (startSession 0 d0c4e).1 =
         ((endSession "g" (0 + 60000) { (startSession 0 d0c4e).1 with goalReached := true }).1,
          Event.hapticPulses 3 ::
            (endSession "g" (0 + 60000) { (startSession 0 d0c4e).1 with goalReached := true }).2)
       ∧ (updateLED "g" (0 + 60000) (startSession 0 d0c4e).1).1.currentState = State.SETTLING
       ∧ (updateLED "g" (0 + 60000) (startSession 0 d0c4e).1).1.pendingSessions.getLast? =
           some { uuid := "g", startTime := 0 / 1000, endTime := (0 + 60000) / 1000,
                  durationSeconds := 60, synced := false })
    ∧ (d0c4e.todaysPlan.enforceGoal = false →
       updateLED "g" (0 + 60000) (startSession 0 d0c4e).1 =
         ({ (startSession 0 d0c4e).1 with goalReached := true }, [Event.hapticPulses 3])) :=
  claim4_goal 0 "g" d0c4e (by decide) (by decide) (by decide)

/-- Claim C5 (amended): a plan upload never changes the phase, the
snapshotted goal duration, the goalReached flag, the session start instant,
the session log or the total, so the goal length and whether the goal
fires are fixed by the plan read at session start; but whether reaching
the goal auto-ends the session is decided by the enforceGoal flag of the
plan current at the goal tick, so a mid-session upload can change it. -/
theorem claim5_snapshot (p : Parsed PlanMsg) (d : Device)
    (u : String) (now : Nat) (e : Device)
    (h1 : e.currentState = State.ACTIVE) (h2 : 0 < e.goalDuration)
    (h3 : e.goalReached = false) (h4 : e.goalDuration ≤ u32sub now e.sessionStartTime) :
    ((storePlans p d).currentState = d.currentState
     ∧ (storePlans p d).goalDuration = d.goalDuration
     ∧ (storePlans p d).goalReached = d.goalReached
     ∧ (storePlans p d).sessionStartTime = d.sessionStartTime
     ∧ (storePlans p d).pendingSessions = d.pendingSessions
     ∧ (storePlans p d).totalSeconds = d.totalSeconds)
    ∧ (updateLED u now e).1.currentState =
        (if e.todaysPlan.enforceGoal = true then State.SETTLING else State.ACTIVE) := by
  constructor
  · cases p with
    | err => exact ⟨rfl, rfl, rfl, rfl, rfl, rfl⟩
    | notArray => exact ⟨rfl, rfl, rfl, rfl, rfl, rfl⟩
    | arr l =>
        cases l with
        | nil => exact ⟨rfl, rfl, rfl, rfl, rfl, rfl⟩
        | cons q qs => exact ⟨rfl, rfl, rfl, rfl, rfl, rfl⟩
  · by_cases henf : e.todaysPlan.enforceGoal = true
    · simp [updateLED, h1, h2, h3, h4, completeWithGoal, endSession, henf]
    · simp [updateLED, h1, h2, h3, h4, completeWithGoal, henf]

/-- Claim C5 witness: the session started under the non-enforced plan P1,
after the mid-session upload of the enforced plan P2, ticked at the goal. -/
theorem claim5_snapshot_w :
    ((storePlans (Parsed.arr [p2c5]) d1c5).currentState = d1c5.currentState
     ∧ (storePlans (Parsed.arr [p2c5]) d1c5).goalDuration = d1c5.goalDuration
     ∧ (storePlans (Parsed.arr [p2c5]) d1c5).goalReached = d1c5.goalReached
     ∧ (storePlans (Parsed.arr [p2c5]) d1c5).sessionStartTime = d1c5.sessionStartTime
     ∧ (storePlans (Parsed.arr [p2c5]) d1c5).pendingSessions = d1c5.pendingSessions
     ∧ (storePlans (Parsed.arr [p2c5]) d1c5).totalSeconds = d1c5.totalSeconds)
    ∧ (updateLED "u" 60000 d2c5).1.currentState =
        (if d2c5.todaysPlan.enforceGoal = true then State.SETTLING else State.ACTIVE) :=
  claim5_snapshot (Parsed.arr [p2c5]) d1c5 "u" 60000 d2c5
    (by decide) (by decide) (by decide) (by decide)

/-- Claim C7 (amended): the transitions Idle to Active, Active to Settling,
and the automatic Settling to Idle each set the Status value and notify a
connected client; the early Settling to Idle on a confirmed squeeze
changes the phase without any Status write or notification. -/
theorem claim7_notify
    (n1 : Nat) (d1 : Device) (h1 : d1.deviceConnected = true)
    (u2 : String) (n2 : Nat) (d2 : Device) (h2 : d2.deviceConnected = true)
    (u3 : String) (n3 : Nat) (d3 : Device) (h3a : d3.deviceConnected = true)
    (h3b : d3.currentState = State.SETTLING) (h3c : ¬ d3.settlingStart = 0)
    (h3d : COMPLETION_GLOW_MS ≤ u32sub n3 d3.settlingStart)
    (u4 : String) (n4 : Nat) (d4 : Device) (h4a : d4.currentState = State.SETTLING)
    (h4b : d4.lastSqueezeState = true)
    (h4c : SQUEEZE_HOLD_MS ≤ u32sub n4 d4.squeezeStartTime) :
    (startSession n1 d1).2 =
        [Event.hapticPulses 1, Event.statusSet State.ACTIVE, Event.statusNotify State.ACTIVE]
    ∧ (endSession u2 n2 d2).2 =
        [Event.hapticPulses 3, Event.statusSet State.SETTLING, Event.statusNotify State.SETTLING]
    ∧ ((updateLED u3 n3 d3).2 = [Event.statusSet State.IDLE, Event.statusNotify State.IDLE]
       ∧ (updateLED u3 n3 d3).1.currentState = State.IDLE)
    ∧ ((handleTouch true true u4 n4 d4).2 = []
       ∧ (handleTouch true true u4 n4 d4).1.currentState = State.IDLE) := by
  have hlt : ¬ u32sub n3 d3.settlingStart < COMPLETION_GLOW_MS := Nat.not_lt.mpr h3d
  refine ⟨?_, ?_, ⟨?_, ?_⟩, ?_, ?_⟩
  · simp [startSession, notifyStatus, h1]
  · by_cases hdur : 10000 ≤ u32sub n2 d2.sessionStartTime <;>
      simp [endSession, notifyStatus, addPendingSession, h2, hdur]
  · simp [updateLED, notifyStatus, h3a, h3b, h3c, hlt]
  · simp [updateLED, h3b, h3c, hlt]
  · simp [handleTouch, dispatchSqueeze, h4a, h4b, h4c]
  · simp [handleTouch, dispatchSqueeze, h4a, h4b, h4c]

/-- Claim C7 witness: the started session of the connected plan device, a
manual stop on it, the automatic settle expiry on the stale-free settling
device at t = 30200, and the squeeze acknowledgment on it at t = 200. -/
theorem claim7_notify_w :
    (startSession 5 dS4).2 =
        [Event.hapticPulses 1, Event.statusSet State.ACTIVE, Event.statusNotify State.ACTIVE]
    ∧ (endSession "x" 123 dS4).2 =
        [Event.hapticPulses 3, Event.statusSet State.SETTLING, Event.statusNotify State.SETTLING]
    ∧ ((updateLED "y" 30200 d7).2 = [Event.statusSet State.IDLE, Event.statusNotify State.IDLE]
       ∧ (updateLED "y" 30200 d7).1.currentState = State.IDLE)
    ∧ ((handleTouch true true "z" 200 d7).2 = []
       ∧ (handleTouch true true "z" 200 d7).1.currentState = State.IDLE) :=
  claim7_notify 5 dS4 (by decide) "x" 123 dS4 (by decide) "y" 30200 d7 (by decide)
    (by decide) (by decide) (by decide) "z" 200 d7 (by decide) (by decide) (by decide)

end MedBand
